import Mathlib

/-!
Prototype: GPU resource wrappers and instance bootstrap.

A shallow embedding of `Source/RenderDevice.cpp`.

The native graphics API and the allocator library are external.  Their result
codes and returned handles are supplied by a `Driver` record; every call the
code issues is appended to a log, and the allocator is a finite set of live
allocation tokens (per allocator handle).  A C++ constructor that may throw is a
function returning `Except String T` together with the world after the call.
-/

set_option linter.unusedVariables false

namespace Prototype

/-! ## Native types and constants (vulkan_core.h, vk_mem_alloc.h) -/

abbrev VkResult := Int
abbrev VmaAllocator := Nat
abbrev VmaAllocation := Nat
abbrev VkBuffer := Nat
abbrev VkBufferView := Nat
abbrev VkImage := Nat
abbrev VkImageView := Nat
abbrev VkDevice := Nat
abbrev VkInstance := Nat
abbrev VkDeviceSize := Nat
abbrev VkFlags := Nat
abbrev VkFormat := Nat

def VK_SUCCESS : VkResult := 0
def VK_INCOMPLETE : VkResult := 5
def VK_ERROR_OUT_OF_DEVICE_MEMORY : VkResult := -2
def VK_ERROR_INITIALIZATION_FAILED : VkResult := -3

def VK_STRUCTURE_TYPE_APPLICATION_INFO : Nat := 0
def VK_STRUCTURE_TYPE_INSTANCE_CREATE_INFO : Nat := 1
def VK_STRUCTURE_TYPE_BUFFER_CREATE_INFO : Nat := 12
def VK_STRUCTURE_TYPE_BUFFER_VIEW_CREATE_INFO : Nat := 13
def VK_STRUCTURE_TYPE_IMAGE_CREATE_INFO : Nat := 14
def VK_STRUCTURE_TYPE_IMAGE_VIEW_CREATE_INFO : Nat := 15

def VK_SHARING_MODE_EXCLUSIVE : Nat := 0
def VK_SAMPLE_COUNT_1_BIT : Nat := 1
def VK_IMAGE_LAYOUT_UNDEFINED : Nat := 0
def VK_VERSION_1_2 : Nat := 1

def VK_BUFFER_USAGE_TRANSFER_DST_BIT : VkFlags := 2
def VK_IMAGE_USAGE_SAMPLED_BIT : VkFlags := 4
def VK_MEMORY_PROPERTY_DEVICE_LOCAL_BIT : VkFlags := 1
def VK_MEMORY_PROPERTY_HOST_VISIBLE_BIT : VkFlags := 2
def VK_MEMORY_PROPERTY_HOST_COHERENT_BIT : VkFlags := 4

/-- The allocator library's memory-usage enumeration. -/
inductive VmaMemoryUsage
  | VMA_MEMORY_USAGE_UNKNOWN
  | VMA_MEMORY_USAGE_GPU_ONLY
  | VMA_MEMORY_USAGE_CPU_ONLY
  | VMA_MEMORY_USAGE_CPU_TO_GPU
  | VMA_MEMORY_USAGE_GPU_TO_CPU
  | VMA_MEMORY_USAGE_CPU_COPY
  | VMA_MEMORY_USAGE_GPU_LAZILY_ALLOCATED
  | VMA_MEMORY_USAGE_AUTO
  | VMA_MEMORY_USAGE_AUTO_PREFER_DEVICE
  | VMA_MEMORY_USAGE_AUTO_PREFER_HOST
deriving DecidableEq, Repr

/-- The integer value of an enumerator, used where C++ converts it implicitly. -/
def VmaMemoryUsage.toFlags : VmaMemoryUsage → VkFlags
  | VMA_MEMORY_USAGE_UNKNOWN => 0
  | VMA_MEMORY_USAGE_GPU_ONLY => 1
  | VMA_MEMORY_USAGE_CPU_ONLY => 2
  | VMA_MEMORY_USAGE_CPU_TO_GPU => 3
  | VMA_MEMORY_USAGE_GPU_TO_CPU => 4
  | VMA_MEMORY_USAGE_CPU_COPY => 5
  | VMA_MEMORY_USAGE_GPU_LAZILY_ALLOCATED => 6
  | VMA_MEMORY_USAGE_AUTO => 7
  | VMA_MEMORY_USAGE_AUTO_PREFER_DEVICE => 8
  | VMA_MEMORY_USAGE_AUTO_PREFER_HOST => 9

/-- `VK_MAKE_API_VERSION(variant, major, minor, patch)`, a 32-bit packed value. -/
def VK_MAKE_API_VERSION (variant major minor patch : Nat) : Nat :=
  ((variant <<< 29) ||| (major <<< 22) ||| (minor <<< 12) ||| patch) % 2 ^ 32

structure VkExtent3D where
  width : Nat
  height : Nat
  depth : Nat
deriving DecidableEq, Repr

structure VkComponentMapping where
  r : Nat
  g : Nat
  b : Nat
  a : Nat
deriving DecidableEq, Repr

structure VkImageSubresourceRange where
  aspectMask : VkFlags
  baseMipLevel : Nat
  levelCount : Nat
  baseArrayLayer : Nat
  layerCount : Nat
deriving DecidableEq, Repr

/-- A pointer to a run of queue-family indices is the list it points at; `pNext`
and other pointers that the code only ever sets to null are `Option Nat`. -/
structure VkBufferCreateInfo where
  sType : Nat
  pNext : Option Nat
  flags : VkFlags
  size : VkDeviceSize
  usage : VkFlags
  sharingMode : Nat
  queueFamilyIndexCount : Nat
  pQueueFamilyIndices : List Nat
deriving DecidableEq, Repr

/-- The float `priority` is only ever written as `0.0f`; it is kept as the
integer `0`. -/
structure VmaAllocationCreateInfo where
  flags : VkFlags
  usage : VmaMemoryUsage
  requiredFlags : VkFlags
  preferredFlags : VkFlags
  memoryTypeBits : Nat
  pool : Option Nat
  pUserData : Option Nat
  priority : Int
deriving DecidableEq, Repr

structure VkBufferViewCreateInfo where
  sType : Nat
  pNext : Option Nat
  flags : VkFlags
  buffer : VkBuffer
  format : VkFormat
  offset : VkDeviceSize
  range : VkDeviceSize
deriving DecidableEq, Repr

structure VkImageCreateInfo where
  sType : Nat
  pNext : Option Nat
  flags : VkFlags
  imageType : Nat
  format : VkFormat
  extent : VkExtent3D
  mipLevels : Nat
  arrayLayers : Nat
  samples : Nat
  tiling : Nat
  usage : VkFlags
  sharingMode : Nat
  queueFamilyIndexCount : Nat
  pQueueFamilyIndices : List Nat
  initialLayout : Nat
deriving DecidableEq, Repr

structure VkImageViewCreateInfo where
  sType : Nat
  pNext : Option Nat
  flags : VkFlags
  image : VkImage
  viewType : Nat
  format : VkFormat
  components : VkComponentMapping
  subresourceRange : VkImageSubresourceRange
deriving DecidableEq, Repr

structure VkApplicationInfo where
  sType : Nat
  pNext : Option Nat
  pApplicationName : String
  applicationVersion : Nat
  pEngineName : String
  engineVersion : Nat
  apiVersion : Nat
deriving DecidableEq, Repr

structure VkLayerProperties where
  layerName : String
  specVersion : Nat
  implementationVersion : Nat
  description : String
deriving DecidableEq, Repr

structure VkExtensionProperties where
  extensionName : String
  specVersion : Nat
deriving DecidableEq, Repr

structure VkInstanceCreateInfo where
  sType : Nat
  pNext : Option Nat
  flags : VkFlags
  pApplicationInfo : VkApplicationInfo
  enabledLayerCount : Nat
  ppEnabledLayerNames : List String
  enabledExtensionCount : Nat
  ppEnabledExtensionNames : List String
deriving DecidableEq, Repr

/-! Value-initialised (`= {}`) records. -/

def VkBufferCreateInfo.zero : VkBufferCreateInfo :=
  ⟨0, none, 0, 0, 0, 0, 0, []⟩

def VmaAllocationCreateInfo.zero : VmaAllocationCreateInfo :=
  ⟨0, VmaMemoryUsage.VMA_MEMORY_USAGE_UNKNOWN, 0, 0, 0, none, none, 0⟩

def VkBufferViewCreateInfo.zero : VkBufferViewCreateInfo :=
  ⟨0, none, 0, 0, 0, 0, 0⟩

def VkImageCreateInfo.zero : VkImageCreateInfo :=
  ⟨0, none, 0, 0, 0, ⟨0, 0, 0⟩, 0, 0, 0, 0, 0, 0, 0, [], 0⟩

def VkImageViewCreateInfo.zero : VkImageViewCreateInfo :=
  ⟨0, none, 0, 0, 0, 0, ⟨0, 0, 0, 0⟩, ⟨0, 0, 0, 0, 0⟩⟩

def VkApplicationInfo.zero : VkApplicationInfo :=
  ⟨0, none, "", 0, "", 0, 0⟩

def VkLayerProperties.zero : VkLayerProperties :=
  ⟨"", 0, 0, ""⟩

def VkExtensionProperties.zero : VkExtensionProperties :=
  ⟨"", 0⟩

def VkInstanceCreateInfo.zero : VkInstanceCreateInfo :=
  ⟨0, none, 0, VkApplicationInfo.zero, 0, [], 0, []⟩

/-! ## The world outside the program -/

/-- Every call into the native API or the allocator library that the source can
issue, together with the destroy call for image views that the API offers. -/
inductive NativeCall
  | vmaCreateBuffer (allocator : VmaAllocator) (info : VkBufferCreateInfo)
      (alloc : VmaAllocationCreateInfo)
  | vmaDestroyBuffer (allocator : VmaAllocator) (buffer : VkBuffer)
      (allocation : VmaAllocation)
  | vkCreateBufferView (device : VkDevice) (info : VkBufferViewCreateInfo)
  | vkDestroyBufferView (device : VkDevice) (view : VkBufferView)
  | vmaCreateImage (allocator : VmaAllocator) (info : VkImageCreateInfo)
      (alloc : VmaAllocationCreateInfo)
  | vmaDestroyImage (allocator : VmaAllocator) (image : VkImage)
      (allocation : VmaAllocation)
  | vkCreateImageView (device : VkDevice) (info : VkImageViewCreateInfo)
  | vkDestroyImageView (device : VkDevice) (view : VkImageView)
  | vkEnumerateInstanceLayerProperties (withData : Bool)
  | vkEnumerateInstanceExtensionProperties (withData : Bool)
  | vkCreateInstance (info : VkInstanceCreateInfo)
deriving DecidableEq, Repr

/-- Calls that release something. -/
def NativeCall.isDestroy : NativeCall → Bool
  | vmaDestroyBuffer _ _ _ => true
  | vkDestroyBufferView _ _ => true
  | vmaDestroyImage _ _ _ => true
  | vkDestroyImageView _ _ => true
  | _ => false

/-- Calls that create a driver instance. -/
def NativeCall.isCreateInstance : NativeCall → Bool
  | vkCreateInstance _ => true
  | _ => false

/-- The allocation tokens currently registered, each with the allocator that
issued it, and the log of native calls in the order they were issued. -/
structure World where
  live : Finset (VmaAllocator × VmaAllocation)
  calls : List NativeCall
deriving DecidableEq

/-- The calls issued while going from `w` to a later world `w'`. -/
def World.issued (w w' : World) : List NativeCall :=
  w'.calls.drop w.calls.length

/-- What the external services answer.  The creation entries see the world and
the request and return the result code and the output handles. -/
structure Driver where
  createBuffer : World → VmaAllocator → VkBufferCreateInfo → VmaAllocationCreateInfo →
    VkResult × VkBuffer × VmaAllocation
  createImage : World → VmaAllocator → VkImageCreateInfo → VmaAllocationCreateInfo →
    VkResult × VkImage × VmaAllocation
  createBufferView : World → VkDevice → VkBufferViewCreateInfo → VkResult × VkBufferView
  createImageView : World → VkDevice → VkImageViewCreateInfo → VkResult × VkImageView
  layerCountResult : VkResult
  layerDataResult : VkResult
  layers : List VkLayerProperties
  extensionCountResult : VkResult
  extensionDataResult : VkResult
  extensions : List VkExtensionProperties
  createInstance : World → VkInstanceCreateInfo → VkResult × VkInstance

/-- The windowing collaborator behind `GetWindow()`. -/
structure Window where
  GetSurfaceInstanceExtensionName : String

/-- The constants of `Version.h`. -/
structure Version where
  MAGINVOX_VERSION_VARIANT : Nat
  MAGINVOX_VERSION_MAJOR : Nat
  MAGINVOX_VERSION_MINOR : Nat
  MAGINVOX_VERSION_PATCH : Nat

/-! ### Native entry points

Each one logs the call.  A successful allocator creation registers the returned
token with the allocator it was asked of; an unsuccessful one registers
nothing; a destroy releases the token it is given. -/

def vmaCreateBuffer (d : Driver) (w : World) (allocator : VmaAllocator)
    (pBufferCreateInfo : VkBufferCreateInfo) (pAllocationCreateInfo : VmaAllocationCreateInfo) :
    (VkResult × VkBuffer × VmaAllocation) × World :=
  let r := d.createBuffer w allocator pBufferCreateInfo pAllocationCreateInfo
  (r, { live := if r.1 = VK_SUCCESS then insert (allocator, r.2.2) w.live else w.live,
        calls := w.calls ++
          [NativeCall.vmaCreateBuffer allocator pBufferCreateInfo pAllocationCreateInfo] })

def vmaDestroyBuffer (w : World) (allocator : VmaAllocator) (buffer : VkBuffer)
    (allocation : VmaAllocation) : World :=
  { live := w.live.erase (allocator, allocation),
    calls := w.calls ++ [NativeCall.vmaDestroyBuffer allocator buffer allocation] }

def vmaCreateImage (d : Driver) (w : World) (allocator : VmaAllocator)
    (pImageCreateInfo : VkImageCreateInfo) (pAllocationCreateInfo : VmaAllocationCreateInfo) :
    (VkResult × VkImage × VmaAllocation) × World :=
  let r := d.createImage w allocator pImageCreateInfo pAllocationCreateInfo
  (r, { live := if r.1 = VK_SUCCESS then insert (allocator, r.2.2) w.live else w.live,
        calls := w.calls ++
          [NativeCall.vmaCreateImage allocator pImageCreateInfo pAllocationCreateInfo] })

def vmaDestroyImage (w : World) (allocator : VmaAllocator) (image : VkImage)
    (allocation : VmaAllocation) : World :=
  { live := w.live.erase (allocator, allocation),
    calls := w.calls ++ [NativeCall.vmaDestroyImage allocator image allocation] }

def vkCreateBufferView (d : Driver) (w : World) (device : VkDevice)
    (pCreateInfo : VkBufferViewCreateInfo) : (VkResult × VkBufferView) × World :=
  (d.createBufferView w device pCreateInfo,
    { w with calls := w.calls ++ [NativeCall.vkCreateBufferView device pCreateInfo] })

def vkDestroyBufferView (w : World) (device : VkDevice) (bufferView : VkBufferView) : World :=
  { w with calls := w.calls ++ [NativeCall.vkDestroyBufferView device bufferView] }

def vkCreateImageView (d : Driver) (w : World) (device : VkDevice)
    (pCreateInfo : VkImageViewCreateInfo) : (VkResult × VkImageView) × World :=
  (d.createImageView w device pCreateInfo,
    { w with calls := w.calls ++ [NativeCall.vkCreateImageView device pCreateInfo] })

/-- The count query: `pProperties` is null, the number of layers is written to
`pPropertyCount`. -/
def vkEnumerateInstanceLayerPropertiesCount (d : Driver) (w : World) :
    (VkResult × Nat) × World :=
  ((d.layerCountResult, d.layers.length),
    { w with calls := w.calls ++ [NativeCall.vkEnumerateInstanceLayerProperties false] })

/-- The data query: at most `pPropertyCount` entries of the array are
overwritten, the rest of the array is left as it was. -/
def vkEnumerateInstanceLayerPropertiesData (d : Driver) (w : World) (pPropertyCount : Nat)
    (pProperties : List VkLayerProperties) : (VkResult × List VkLayerProperties) × World :=
  ((d.layerDataResult,
      d.layers.take pPropertyCount ++ pProperties.drop (d.layers.take pPropertyCount).length),
    { w with calls := w.calls ++ [NativeCall.vkEnumerateInstanceLayerProperties true] })

def vkEnumerateInstanceExtensionPropertiesCount (d : Driver) (w : World) :
    (VkResult × Nat) × World :=
  ((d.extensionCountResult, d.extensions.length),
    { w with calls := w.calls ++ [NativeCall.vkEnumerateInstanceExtensionProperties false] })

def vkEnumerateInstanceExtensionPropertiesData (d : Driver) (w : World) (pPropertyCount : Nat)
    (pProperties : List VkExtensionProperties) :
    (VkResult × List VkExtensionProperties) × World :=
  ((d.extensionDataResult,
      d.extensions.take pPropertyCount ++
        pProperties.drop (d.extensions.take pPropertyCount).length),
    { w with calls := w.calls ++ [NativeCall.vkEnumerateInstanceExtensionProperties true] })

def vkCreateInstance (d : Driver) (w : World) (pCreateInfo : VkInstanceCreateInfo) :
    (VkResult × VkInstance) × World :=
  (d.createInstance w pCreateInfo,
    { w with calls := w.calls ++ [NativeCall.vkCreateInstance pCreateInfo] })

/-- C `strcmp`: zero exactly on equal strings, otherwise the sign of the order. -/
def strcmp (a b : String) : Int :=
  if a = b then 0 else if a < b then -1 else 1

/-! ## The program: resource wrappers -/

structure Buffer where
  mAllocator : VmaAllocator
  mBuffer : VkBuffer
  mAllocation : VmaAllocation
deriving DecidableEq, Repr

structure BufferView where
  mDevice : VkDevice
  mBufferView : VkBufferView
deriving DecidableEq, Repr

structure Image where
  mAllocator : VmaAllocator
  mImage : VkImage
  mAllocation : VmaAllocation
deriving DecidableEq, Repr

structure ImageView where
  mDevice : VkDevice
  mImageView : VkImageView
deriving DecidableEq, Repr

/-- The creation request `Buffer::Buffer` fills in (lines 16-23).  The record is
value-initialised and the constructor assigns `sType`, `pNext`, `flags`,
`size`, `sharingMode`, `queueFamilyIndexCount` and `pQueueFamilyIndices`;
there is no assignment to `usage`. -/
def Buffer.bufferCreateInfo (size : VkDeviceSize) (usage : VkFlags)
    (graphicsQueueFamilyIndex : Nat) : VkBufferCreateInfo :=
  let bufferCreateInfo := VkBufferCreateInfo.zero
  let bufferCreateInfo := { bufferCreateInfo with sType := VK_STRUCTURE_TYPE_BUFFER_CREATE_INFO }
  let bufferCreateInfo := { bufferCreateInfo with pNext := none }
  let bufferCreateInfo := { bufferCreateInfo with flags := 0 }
  let bufferCreateInfo := { bufferCreateInfo with size := size }
  let bufferCreateInfo := { bufferCreateInfo with sharingMode := VK_SHARING_MODE_EXCLUSIVE }
  let bufferCreateInfo := { bufferCreateInfo with queueFamilyIndexCount := 1 }
  let bufferCreateInfo :=
    { bufferCreateInfo with pQueueFamilyIndices := [graphicsQueueFamilyIndex] }
  bufferCreateInfo

/-- The allocation request `Buffer::Buffer` fills in (lines 25-33). -/
def Buffer.allocationCreateInfo (memoryUsage : VmaMemoryUsage) (requiredFlags : VkFlags) :
    VmaAllocationCreateInfo :=
  let allocationCreateInfo := VmaAllocationCreateInfo.zero
  let allocationCreateInfo := { allocationCreateInfo with flags := 0 }
  let allocationCreateInfo := { allocationCreateInfo with usage := memoryUsage }
  let allocationCreateInfo := { allocationCreateInfo with requiredFlags := requiredFlags }
  let allocationCreateInfo := { allocationCreateInfo with preferredFlags := 0 }
  let allocationCreateInfo := { allocationCreateInfo with memoryTypeBits := 0 }
  let allocationCreateInfo := { allocationCreateInfo with pool := none }
  let allocationCreateInfo := { allocationCreateInfo with pUserData := none }
  let allocationCreateInfo := { allocationCreateInfo with priority := 0 }
  allocationCreateInfo

/-- `Buffer::Buffer` (lines 12-41). -/
def Buffer.new (d : Driver) (w : World) (allocator : VmaAllocator) (size : VkDeviceSize)
    (usage : VkFlags) (graphicsQueueFamilyIndex : Nat) (memoryUsage : VmaMemoryUsage)
    (requiredFlags : VkFlags) : Except String Buffer × World :=
  let bufferCreateInfo := Buffer.bufferCreateInfo size usage graphicsQueueFamilyIndex
  let allocationCreateInfo := Buffer.allocationCreateInfo memoryUsage requiredFlags
  let (r, w1) := vmaCreateBuffer d w allocator bufferCreateInfo allocationCreateInfo
  if r.1 ≠ VK_SUCCESS then
    (Except.error "Could not create a VMA Buffer, might\x27ve ran out of graphics memory.", w1)
  else
    (Except.ok { mAllocator := allocator, mBuffer := r.2.1, mAllocation := r.2.2 }, w1)

/-- `Buffer::~Buffer` (lines 43-46). -/
def Buffer.destroy (w : World) (self : Buffer) : World :=
  vmaDestroyBuffer w self.mAllocator self.mBuffer self.mAllocation

/-- The creation request `BufferView::BufferView` fills in (lines 51-58). -/
def BufferView.bufferViewCreateInfo (buffer : VkBuffer) (format : VkFormat)
    (offset range : VkDeviceSize) : VkBufferViewCreateInfo :=
  let bufferViewCreateInfo := VkBufferViewCreateInfo.zero
  let bufferViewCreateInfo :=
    { bufferViewCreateInfo with sType := VK_STRUCTURE_TYPE_BUFFER_VIEW_CREATE_INFO }
  let bufferViewCreateInfo := { bufferViewCreateInfo with pNext := none }
  let bufferViewCreateInfo := { bufferViewCreateInfo with flags := 0 }
  let bufferViewCreateInfo := { bufferViewCreateInfo with buffer := buffer }
  let bufferViewCreateInfo := { bufferViewCreateInfo with format := format }
  let bufferViewCreateInfo := { bufferViewCreateInfo with offset := offset }
  let bufferViewCreateInfo := { bufferViewCreateInfo with range := range }
  bufferViewCreateInfo

/-- `BufferView::BufferView` (lines 48-64). -/
def BufferView.new (d : Driver) (w : World) (device : VkDevice) (buffer : VkBuffer)
    (format : VkFormat) (offset range : VkDeviceSize) : Except String BufferView × World :=
  let mDevice := device
  let bufferViewCreateInfo := BufferView.bufferViewCreateInfo buffer format offset range
  let (r, w1) := vkCreateBufferView d w mDevice bufferViewCreateInfo
  if r.1 ≠ VK_SUCCESS then
    (Except.error "Could not create a buffer view!", w1)
  else
    (Except.ok { mDevice := mDevice, mBufferView := r.2 }, w1)

/-- `BufferView::~BufferView` (lines 66-69). -/
def BufferView.destroy (w : World) (self : BufferView) : World :=
  vkDestroyBufferView w self.mDevice self.mBufferView

/-- The creation request `Image::Image` fills in (lines 75-90). -/
def Image.imageCreateInfo (graphicsQueueIndex : Nat) (imageType : Nat) (format : VkFormat)
    (extent : VkExtent3D) (mipLevels : Nat) (tiling : Nat) (usage : VkFlags) :
    VkImageCreateInfo :=
  let imageCreateInfo := VkImageCreateInfo.zero
  let imageCreateInfo := { imageCreateInfo with sType := VK_STRUCTURE_TYPE_IMAGE_CREATE_INFO }
  let imageCreateInfo := { imageCreateInfo with pNext := none }
  let imageCreateInfo := { imageCreateInfo with flags := 0 }
  let imageCreateInfo := { imageCreateInfo with imageType := imageType }
  let imageCreateInfo := { imageCreateInfo with format := format }
  let imageCreateInfo := { imageCreateInfo with extent := extent }
  let imageCreateInfo := { imageCreateInfo with mipLevels := mipLevels }
  let imageCreateInfo := { imageCreateInfo with arrayLayers := 1 }
  let imageCreateInfo := { imageCreateInfo with samples := VK_SAMPLE_COUNT_1_BIT }
  let imageCreateInfo := { imageCreateInfo with tiling := tiling }
  let imageCreateInfo := { imageCreateInfo with usage := usage }
  let imageCreateInfo := { imageCreateInfo with sharingMode := VK_SHARING_MODE_EXCLUSIVE }
  let imageCreateInfo := { imageCreateInfo with queueFamilyIndexCount := 1 }
  let imageCreateInfo := { imageCreateInfo with pQueueFamilyIndices := [graphicsQueueIndex] }
  let imageCreateInfo := { imageCreateInfo with initialLayout := VK_IMAGE_LAYOUT_UNDEFINED }
  imageCreateInfo

/-- The allocation request `Image::Image` fills in (lines 92-100): `usage` is
the constant `VMA_MEMORY_USAGE_GPU_ONLY`, `requiredFlags` is assigned the
`memoryUsage` parameter, and the `requiredFlags` parameter is not read. -/
def Image.allocationCreateInfo (memoryUsage : VmaMemoryUsage) (requiredFlags : VkFlags) :
    VmaAllocationCreateInfo :=
  let allocationCreateInfo := VmaAllocationCreateInfo.zero
  let allocationCreateInfo := { allocationCreateInfo with flags := 0 }
  let allocationCreateInfo :=
    { allocationCreateInfo with usage := VmaMemoryUsage.VMA_MEMORY_USAGE_GPU_ONLY }
  let allocationCreateInfo := { allocationCreateInfo with requiredFlags := memoryUsage.toFlags }
  let allocationCreateInfo := { allocationCreateInfo with preferredFlags := 0 }
  let allocationCreateInfo := { allocationCreateInfo with memoryTypeBits := 0 }
  let allocationCreateInfo := { allocationCreateInfo with pool := none }
  let allocationCreateInfo := { allocationCreateInfo with pUserData := none }
  let allocationCreateInfo := { allocationCreateInfo with priority := 0 }
  allocationCreateInfo

/-- `Image::Image` (lines 71-108). -/
def Image.new (d : Driver) (w : World) (allocator : VmaAllocator) (graphicsQueueIndex : Nat)
    (imageType : Nat) (format : VkFormat) (extent : VkExtent3D) (mipLevels : Nat)
    (tiling : Nat) (usage : VkFlags) (memoryUsage : VmaMemoryUsage) (requiredFlags : VkFlags) :
    Except String Image × World :=
  let imageCreateInfo :=
    Image.imageCreateInfo graphicsQueueIndex imageType format extent mipLevels tiling usage
  let allocationCreateInfo := Image.allocationCreateInfo memoryUsage requiredFlags
  let (r, w1) := vmaCreateImage d w allocator imageCreateInfo allocationCreateInfo
  if r.1 ≠ VK_SUCCESS then
    (Except.error "Could not create a VMA Image!", w1)
  else
    (Except.ok { mAllocator := allocator, mImage := r.2.1, mAllocation := r.2.2 }, w1)

/-- `Image::~Image` (lines 110-113). -/
def Image.destroy (w : World) (self : Image) : World :=
  vmaDestroyImage w self.mAllocator self.mImage self.mAllocation

/-- The creation request `ImageView::ImageView` fills in (lines 118-126); the
`extent` parameter is not read. -/
def ImageView.imageViewCreateInfo (image : VkImage) (viewType : Nat) (extent : VkExtent3D)
    (format : VkFormat) (components : VkComponentMapping)
    (subresourceRange : VkImageSubresourceRange) : VkImageViewCreateInfo :=
  let imageViewCreateInfo := VkImageViewCreateInfo.zero
  let imageViewCreateInfo :=
    { imageViewCreateInfo with sType := VK_STRUCTURE_TYPE_IMAGE_VIEW_CREATE_INFO }
  let imageViewCreateInfo := { imageViewCreateInfo with pNext := none }
  let imageViewCreateInfo := { imageViewCreateInfo with flags := 0 }
  let imageViewCreateInfo := { imageViewCreateInfo with image := image }
  let imageViewCreateInfo := { imageViewCreateInfo with viewType := viewType }
  let imageViewCreateInfo := { imageViewCreateInfo with format := format }
  let imageViewCreateInfo := { imageViewCreateInfo with components := components }
  let imageViewCreateInfo := { imageViewCreateInfo with subresourceRange := subresourceRange }
  imageViewCreateInfo

/-- `ImageView::ImageView` (lines 115-132). -/
def ImageView.new (d : Driver) (w : World) (device : VkDevice) (image : VkImage)
    (viewType : Nat) (extent : VkExtent3D) (format : VkFormat)
    (components : VkComponentMapping) (subresourceRange : VkImageSubresourceRange) :
    Except String ImageView × World :=
  let mDevice := device
  let imageViewCreateInfo :=
    ImageView.imageViewCreateInfo image viewType extent format components subresourceRange
  let (r, w1) := vkCreateImageView d w mDevice imageViewCreateInfo
  if r.1 ≠ VK_SUCCESS then
    (Except.error "Could not create an image view!", w1)
  else
    (Except.ok { mDevice := mDevice, mImageView := r.2 }, w1)

/-- Destruction of an `ImageView`.  The source defines `Buffer::~Buffer`,
`BufferView::~BufferView` and `Image::~Image`, but no `ImageView::~ImageView`,
and `vkDestroyImageView` occurs nowhere in it: ending an `ImageView` runs no
statement of the source, so the world is left as it is. -/
def ImageView.destroy (w : World) (self : ImageView) : World :=
  w

/-! ## The program: instance bootstrap

`RenderDevice::RenderDevice` (lines 134-228).  The text of the constructor is
unfinished from line 195 on: line 195 is a conditional directive with no
condition and no closing directive, the statement on line 208 lacks its
semicolon, and line 211 is a loop header `for (uint32_t i = 0; i < )` with no
bound and no body.  The embedding keeps every complete statement in the order
written.  Nothing in the text compares `requiredInstanceExtensions` with the
enumerated properties, and nothing appends to `instanceExtensions`. -/

structure RenderDevice where
  mInstance : VkInstance
deriving DecidableEq, Repr

/-- `std::vector::resize` with value-initialised new elements. -/
def vectorResize {α : Type} (v : List α) (n : Nat) (zero : α) : List α :=
  v.take n ++ List.replicate (n - v.length) zero

/-- The identity record (lines 137-144). -/
def RenderDevice.applicationInfo (ver : Version) : VkApplicationInfo :=
  let applicationInfo := VkApplicationInfo.zero
  let applicationInfo := { applicationInfo with sType := VK_STRUCTURE_TYPE_APPLICATION_INFO }
  let applicationInfo := { applicationInfo with pNext := none }
  let applicationInfo := { applicationInfo with pApplicationName := "Maginvox" }
  let applicationInfo := { applicationInfo with
    applicationVersion := VK_MAKE_API_VERSION ver.MAGINVOX_VERSION_VARIANT
      ver.MAGINVOX_VERSION_MAJOR ver.MAGINVOX_VERSION_MINOR ver.MAGINVOX_VERSION_PATCH }
  let applicationInfo := { applicationInfo with pEngineName := "Maginvox" }
  let applicationInfo := { applicationInfo with
    engineVersion := VK_MAKE_API_VERSION ver.MAGINVOX_VERSION_VARIANT
      ver.MAGINVOX_VERSION_MAJOR ver.MAGINVOX_VERSION_MINOR ver.MAGINVOX_VERSION_PATCH }
  let applicationInfo := { applicationInfo with apiVersion := VK_VERSION_1_2 }
  applicationInfo

/-- The hard-coded required layer set (line 153). -/
def RenderDevice.requiredLayers : List String :=
  ["VK_LAYER_KHRONOS_validation"]

/-- The inner loop (lines 169-176): scans every reported layer, without leaving
early, and sets `foundLayer` on each name that compares equal. -/
def RenderDevice.foundLayer (required : String) (layerProperties : List VkLayerProperties) :
    Bool :=
  layerProperties.foldl
    (fun foundLayer p => if strcmp required p.layerName = 0 then true else foundLayer) false

/-- The outer loop (lines 167-184) over the required layers still to visit. -/
def RenderDevice.layerLoop : List String → List VkLayerProperties → List String →
    Except String (List String)
  | [], _, instanceLayers => Except.ok instanceLayers
  | required :: rest, layerProperties, instanceLayers =>
    if !(RenderDevice.foundLayer required layerProperties) then
      Except.error "Could not find a required instance layer!"
    else
      RenderDevice.layerLoop rest layerProperties (instanceLayers ++ [required])

/-- The block under `#ifdef MAGINVOX_DEBUG` (lines 149-186). -/
def RenderDevice.debugLayers (d : Driver) (w : World) (instanceLayers : List String) :
    Except String (List String) × World :=
  let layerCount := 0
  let layerProperties : List VkLayerProperties := []
  let requiredLayers := RenderDevice.requiredLayers
  let (r1, w1) := vkEnumerateInstanceLayerPropertiesCount d w
  if r1.1 ≠ VK_SUCCESS then
    (Except.error "Could not get the instance layers count!", w1)
  else
    let layerCount := r1.2
    let layerProperties := vectorResize layerProperties layerCount VkLayerProperties.zero
    let (r2, w2) := vkEnumerateInstanceLayerPropertiesData d w1 layerCount layerProperties
    if r2.1 ≠ VK_SUCCESS then
      (Except.error "Could not get the instance layers!", w2)
    else
      let layerProperties := r2.2
      (RenderDevice.layerLoop requiredLayers layerProperties instanceLayers, w2)

/-- The creation request (lines 213-221). -/
def RenderDevice.instanceCreateInfo (applicationInfo : VkApplicationInfo)
    (instanceLayers instanceExtensions : List String) : VkInstanceCreateInfo :=
  let instanceCreateInfo := VkInstanceCreateInfo.zero
  let instanceCreateInfo :=
    { instanceCreateInfo with sType := VK_STRUCTURE_TYPE_INSTANCE_CREATE_INFO }
  let instanceCreateInfo := { instanceCreateInfo with pNext := none }
  let instanceCreateInfo := { instanceCreateInfo with flags := 0 }
  let instanceCreateInfo := { instanceCreateInfo with pApplicationInfo := applicationInfo }
  let instanceCreateInfo :=
    { instanceCreateInfo with enabledLayerCount := instanceLayers.length % 2 ^ 32 }
  let instanceCreateInfo := { instanceCreateInfo with ppEnabledLayerNames := instanceLayers }
  let instanceCreateInfo :=
    { instanceCreateInfo with enabledExtensionCount := instanceExtensions.length % 2 ^ 32 }
  let instanceCreateInfo :=
    { instanceCreateInfo with ppEnabledExtensionNames := instanceExtensions }
  instanceCreateInfo

/-- Lines 188-227, entered with the layer list the debug block left. -/
def RenderDevice.extensionsAndInstance (win : Window) (d : Driver) (w : World)
    (applicationInfo : VkApplicationInfo) (instanceLayers instanceExtensions : List String) :
    Except String RenderDevice × World :=
  let instanceExtensionCount := 0
  let instanceExtensionProperties : List VkExtensionProperties := []
  let requiredInstanceExtensions := ["VK_KHR_surface", win.GetSurfaceInstanceExtensionName]
  let (r1, w1) := vkEnumerateInstanceExtensionPropertiesCount d w
  if r1.1 ≠ VK_SUCCESS then
    (Except.error "Could not get the instance extension property count!", w1)
  else
    let instanceExtensionCount := r1.2
    let instanceExtensionProperties :=
      vectorResize instanceExtensionProperties instanceExtensionCount VkExtensionProperties.zero
    let (r2, w2) := vkEnumerateInstanceExtensionPropertiesData d w1 instanceExtensionCount
      instanceExtensionProperties
    if r2.1 ≠ VK_SUCCESS then
      (Except.error "Could not get the instance extension properties!", w2)
    else
      let instanceCreateInfo :=
        RenderDevice.instanceCreateInfo applicationInfo instanceLayers instanceExtensions
      let (r3, w3) := vkCreateInstance d w2 instanceCreateInfo
      if r3.1 ≠ VK_SUCCESS then
        (Except.error "Could not create the instance!", w3)
      else
        (Except.ok { mInstance := r3.2 }, w3)

/-- `RenderDevice::RenderDevice`; `MAGINVOX_DEBUG` tells whether the macro of
that name is defined. -/
def RenderDevice.new (MAGINVOX_DEBUG : Bool) (ver : Version) (win : Window) (d : Driver)
    (w : World) (physicalDeviceIndex : Nat) : Except String RenderDevice × World :=
  let applicationInfo := RenderDevice.applicationInfo ver
  let instanceLayers : List String := []
  let instanceExtensions : List String := []
  let layerBlock :=
    if MAGINVOX_DEBUG then RenderDevice.debugLayers d w instanceLayers
    else (Except.ok instanceLayers, w)
  match layerBlock with
  | (Except.error e, w1) => (Except.error e, w1)
  | (Except.ok instanceLayers, w1) =>
    RenderDevice.extensionsAndInstance win d w1 applicationInfo instanceLayers instanceExtensions

/-- The creation requests among a list of calls. -/
def instanceRequests : List NativeCall → List VkInstanceCreateInfo
  | [] => []
  | NativeCall.vkCreateInstance info :: rest => info :: instanceRequests rest
  | _ :: rest => instanceRequests rest

/-- Whether a constructor threw. -/
def failed {α : Type} : Except String α → Bool
  | Except.error _ => true
  | Except.ok _ => false

/-! ## Concrete worlds and drivers used to evaluate the program -/

/-- Nothing allocated, nothing called. -/
def emptyWorld : World :=
  { live := ∅, calls := [] }

/-- Allocator 1 already holds token 7 for an earlier buffer. -/
def busyWorld : World :=
  { live := {(1, 7)},
    calls := [NativeCall.vmaCreateBuffer 1 (Buffer.bufferCreateInfo 16 0 0)
      (Buffer.allocationCreateInfo VmaMemoryUsage.VMA_MEMORY_USAGE_GPU_ONLY 0)] }

/-- A driver answering every call with `result`; creations hand out handle 100
and token 42, views handle 200, the instance handle 300. -/
def uniformDriver (result : VkResult) (layers : List VkLayerProperties)
    (extensions : List VkExtensionProperties) : Driver :=
  { createBuffer := fun _ _ _ _ => (result, 100, 42),
    createImage := fun _ _ _ _ => (result, 100, 42),
    createBufferView := fun _ _ _ => (result, 200),
    createImageView := fun _ _ _ => (result, 200),
    layerCountResult := result,
    layerDataResult := result,
    layers := layers,
    extensionCountResult := result,
    extensionDataResult := result,
    extensions := extensions,
    createInstance := fun _ _ => (result, 300) }

def validationLayer : VkLayerProperties :=
  { layerName := "VK_LAYER_KHRONOS_validation", specVersion := 1,
    implementationVersion := 1, description := "Khronos Validation Layer" }

def otherLayer : VkLayerProperties :=
  { layerName := "VK_LAYER_LUNARG_api_dump", specVersion := 1,
    implementationVersion := 1, description := "API dump" }

/-- Everything succeeds; the validation layer and both presentation extensions
are reported. -/
def fullDriver : Driver :=
  uniformDriver VK_SUCCESS [otherLayer, validationLayer]
    [⟨"VK_KHR_surface", 25⟩, ⟨"VK_KHR_win32_surface", 6⟩]

/-- Everything succeeds, but the driver reports no validation layer and no
extension at all. -/
def bareDriver : Driver :=
  uniformDriver VK_SUCCESS [otherLayer] []

/-- Every call reports exhausted device memory. -/
def outOfMemoryDriver : Driver :=
  uniformDriver VK_ERROR_OUT_OF_DEVICE_MEMORY [validationLayer] []

def win32Window : Window :=
  { GetSurfaceInstanceExtensionName := "VK_KHR_win32_surface" }

def version010 : Version :=
  { MAGINVOX_VERSION_VARIANT := 0, MAGINVOX_VERSION_MAJOR := 0,
    MAGINVOX_VERSION_MINOR := 1, MAGINVOX_VERSION_PATCH := 0 }

def extent256 : VkExtent3D :=
  { width := 256, height := 256, depth := 1 }

/-! ## Shared lemmas -/

theorem issued_append (w : World) (live : Finset (VmaAllocator × VmaAllocation))
    (cs : List NativeCall) :
    w.issued { live := live, calls := w.calls ++ cs } = cs := by
  simp [World.issued]

theorem failed_eq_true_iff {α : Type} (r : Except String α) :
    failed r = true ↔ ∃ e, r = Except.error e := by
  cases r <;> simp [failed]

theorem buffer_new_fst (d : Driver) (w : World) (allocator : VmaAllocator)
    (size : VkDeviceSize) (usage : VkFlags) (graphicsQueueFamilyIndex : Nat)
    (memoryUsage : VmaMemoryUsage) (requiredFlags : VkFlags) :
    (Buffer.new d w allocator size usage graphicsQueueFamilyIndex memoryUsage requiredFlags).1 =
      if (d.createBuffer w allocator
            (Buffer.bufferCreateInfo size usage graphicsQueueFamilyIndex)
            (Buffer.allocationCreateInfo memoryUsage requiredFlags)).1 ≠ VK_SUCCESS then
        Except.error "Could not create a VMA Buffer, might\x27ve ran out of graphics memory."
      else
        Except.ok
          { mAllocator := allocator,
            mBuffer := (d.createBuffer w allocator
              (Buffer.bufferCreateInfo size usage graphicsQueueFamilyIndex)
              (Buffer.allocationCreateInfo memoryUsage requiredFlags)).2.1,
            mAllocation := (d.createBuffer w allocator
              (Buffer.bufferCreateInfo size usage graphicsQueueFamilyIndex)
              (Buffer.allocationCreateInfo memoryUsage requiredFlags)).2.2 } := by
  simp only [Buffer.new, vmaCreateBuffer]
  split <;> rfl

theorem buffer_new_snd (d : Driver) (w : World) (allocator : VmaAllocator)
    (size : VkDeviceSize) (usage : VkFlags) (graphicsQueueFamilyIndex : Nat)
    (memoryUsage : VmaMemoryUsage) (requiredFlags : VkFlags) :
    (Buffer.new d w allocator size usage graphicsQueueFamilyIndex memoryUsage requiredFlags).2 =
      (vmaCreateBuffer d w allocator
        (Buffer.bufferCreateInfo size usage graphicsQueueFamilyIndex)
        (Buffer.allocationCreateInfo memoryUsage requiredFlags)).2 := by
  simp only [Buffer.new]
  split <;> rfl

theorem image_new_fst (d : Driver) (w : World) (allocator : VmaAllocator)
    (graphicsQueueIndex imageType : Nat) (format : VkFormat) (extent : VkExtent3D)
    (mipLevels tiling : Nat) (usage : VkFlags) (memoryUsage : VmaMemoryUsage)
    (requiredFlags : VkFlags) :
    (Image.new d w allocator graphicsQueueIndex imageType format extent mipLevels tiling usage
        memoryUsage requiredFlags).1 =
      if (d.createImage w allocator
            (Image.imageCreateInfo graphicsQueueIndex imageType format extent mipLevels tiling
              usage)
            (Image.allocationCreateInfo memoryUsage requiredFlags)).1 ≠ VK_SUCCESS then
        Except.error "Could not create a VMA Image!"
      else
        Except.ok
          { mAllocator := allocator,
            mImage := (d.createImage w allocator
              (Image.imageCreateInfo graphicsQueueIndex imageType format extent mipLevels tiling
                usage)
              (Image.allocationCreateInfo memoryUsage requiredFlags)).2.1,
            mAllocation := (d.createImage w allocator
              (Image.imageCreateInfo graphicsQueueIndex imageType format extent mipLevels tiling
                usage)
              (Image.allocationCreateInfo memoryUsage requiredFlags)).2.2 } := by
  simp only [Image.new, vmaCreateImage]
  split <;> rfl

theorem image_new_snd (d : Driver) (w : World) (allocator : VmaAllocator)
    (graphicsQueueIndex imageType : Nat) (format : VkFormat) (extent : VkExtent3D)
    (mipLevels tiling : Nat) (usage : VkFlags) (memoryUsage : VmaMemoryUsage)
    (requiredFlags : VkFlags) :
    (Image.new d w allocator graphicsQueueIndex imageType format extent mipLevels tiling usage
        memoryUsage requiredFlags).2 =
      (vmaCreateImage d w allocator
        (Image.imageCreateInfo graphicsQueueIndex imageType format extent mipLevels tiling usage)
        (Image.allocationCreateInfo memoryUsage requiredFlags)).2 := by
  simp only [Image.new]
  split <;> rfl

theorem construction_issues_one_creation_call (d : Driver) (w : World)
    (allocator : VmaAllocator) (size : VkDeviceSize) (usage : VkFlags)
    (graphicsQueueFamilyIndex : Nat) (memoryUsage : VmaMemoryUsage) (requiredFlags : VkFlags)
    (graphicsQueueIndex imageType : Nat) (format : VkFormat) (extent : VkExtent3D)
    (mipLevels tiling : Nat) (imageUsage : VkFlags) :
    w.issued (Buffer.new d w allocator size usage graphicsQueueFamilyIndex memoryUsage
        requiredFlags).2 =
      [NativeCall.vmaCreateBuffer allocator
        (Buffer.bufferCreateInfo size usage graphicsQueueFamilyIndex)
        (Buffer.allocationCreateInfo memoryUsage requiredFlags)] ∧
    w.issued (Image.new d w allocator graphicsQueueIndex imageType format extent mipLevels
        tiling imageUsage memoryUsage requiredFlags).2 =
      [NativeCall.vmaCreateImage allocator
        (Image.imageCreateInfo graphicsQueueIndex imageType format extent mipLevels tiling
          imageUsage)
        (Image.allocationCreateInfo memoryUsage requiredFlags)] := by
  constructor
  · rw [buffer_new_snd]
    exact issued_append w _ _
  · rw [image_new_snd]
    exact issued_append w _ _

/-! ## C1: failed construction -/

/-- C1: for every driver, world and argument tuple, `Buffer::Buffer` (resp.
`Image::Image`) issues exactly one native call, the creation call, and throws
if and only if that call reports a result other than `VK_SUCCESS`; when it
throws no object is returned, no destroy call is among the calls issued, and the
set of live allocation tokens is the one before the call. -/
theorem construction_fails_iff_creation_call_fails (d : Driver) (w : World)
    (allocator : VmaAllocator) (size : VkDeviceSize) (usage : VkFlags)
    (graphicsQueueFamilyIndex : Nat) (memoryUsage : VmaMemoryUsage) (requiredFlags : VkFlags)
    (graphicsQueueIndex imageType : Nat) (format : VkFormat) (extent : VkExtent3D)
    (mipLevels tiling : Nat) (imageUsage : VkFlags) :
    ((failed (Buffer.new d w allocator size usage graphicsQueueFamilyIndex memoryUsage
          requiredFlags).1 = true ↔
        (d.createBuffer w allocator
          (Buffer.bufferCreateInfo size usage graphicsQueueFamilyIndex)
          (Buffer.allocationCreateInfo memoryUsage requiredFlags)).1 ≠ VK_SUCCESS) ∧
      w.issued (Buffer.new d w allocator size usage graphicsQueueFamilyIndex memoryUsage
          requiredFlags).2 =
        [NativeCall.vmaCreateBuffer allocator
          (Buffer.bufferCreateInfo size usage graphicsQueueFamilyIndex)
          (Buffer.allocationCreateInfo memoryUsage requiredFlags)] ∧
      (failed (Buffer.new d w allocator size usage graphicsQueueFamilyIndex memoryUsage
          requiredFlags).1 = true →
        (∀ b, (Buffer.new d w allocator size usage graphicsQueueFamilyIndex memoryUsage
          requiredFlags).1 ≠ Except.ok b) ∧
        (∀ c ∈ w.issued (Buffer.new d w allocator size usage graphicsQueueFamilyIndex
          memoryUsage requiredFlags).2, c.isDestroy = false) ∧
        (Buffer.new d w allocator size usage graphicsQueueFamilyIndex memoryUsage
          requiredFlags).2.live = w.live)) ∧
    ((failed (Image.new d w allocator graphicsQueueIndex imageType format extent mipLevels
          tiling imageUsage memoryUsage requiredFlags).1 = true ↔
        (d.createImage w allocator
          (Image.imageCreateInfo graphicsQueueIndex imageType format extent mipLevels tiling
            imageUsage)
          (Image.allocationCreateInfo memoryUsage requiredFlags)).1 ≠ VK_SUCCESS) ∧
      w.issued (Image.new d w allocator graphicsQueueIndex imageType format extent mipLevels
          tiling imageUsage memoryUsage requiredFlags).2 =
        [NativeCall.vmaCreateImage allocator
          (Image.imageCreateInfo graphicsQueueIndex imageType format extent mipLevels tiling
            imageUsage)
          (Image.allocationCreateInfo memoryUsage requiredFlags)] ∧
      (failed (Image.new d w allocator graphicsQueueIndex imageType format extent mipLevels
          tiling imageUsage memoryUsage requiredFlags).1 = true →
        (∀ i, (Image.new d w allocator graphicsQueueIndex imageType format extent mipLevels
          tiling imageUsage memoryUsage requiredFlags).1 ≠ Except.ok i) ∧
        (∀ c ∈ w.issued (Image.new d w allocator graphicsQueueIndex imageType format extent
          mipLevels tiling imageUsage memoryUsage requiredFlags).2, c.isDestroy = false) ∧
        (Image.new d w allocator graphicsQueueIndex imageType format extent mipLevels
          tiling imageUsage memoryUsage requiredFlags).2.live = w.live)) := by
  refine ⟨⟨?_, ?_, ?_⟩, ⟨?_, ?_, ?_⟩⟩
  · rw [buffer_new_fst]
    split <;> simp_all [failed]
  · rw [buffer_new_snd]
    exact issued_append w _ _
  · rw [buffer_new_fst, buffer_new_snd]
    split
    · intro _
      refine ⟨fun b hb => (by cases hb), ?_, ?_⟩
      · intro c hc
        rw [vmaCreateBuffer, issued_append] at hc
        simp only [List.mem_singleton] at hc
        subst hc
        rfl
      · simp_all [vmaCreateBuffer]
    · intro h
      simp [failed] at h
  · rw [image_new_fst]
    split <;> simp_all [failed]
  · rw [image_new_snd]
    exact issued_append w _ _
  · rw [image_new_fst, image_new_snd]
    split
    · intro _
      refine ⟨fun b hb => (by cases hb), ?_, ?_⟩
      · intro c hc
        rw [vmaCreateImage, issued_append] at hc
        simp only [List.mem_singleton] at hc
        subst hc
        rfl
      · simp_all [vmaCreateImage]
    · intro h
      simp [failed] at h

/-- C1 at a concrete input: with device memory exhausted, building a 65536-byte
buffer and a 256x256 image on top of a world that already holds a token throws
and leaves the live set as it was. -/
theorem construction_fails_iff_creation_call_fails_witness :
    (failed (Buffer.new outOfMemoryDriver busyWorld 1 65536 VK_BUFFER_USAGE_TRANSFER_DST_BIT 0
        VmaMemoryUsage.VMA_MEMORY_USAGE_GPU_ONLY 1).1 = true ∧
      (Buffer.new outOfMemoryDriver busyWorld 1 65536 VK_BUFFER_USAGE_TRANSFER_DST_BIT 0
        VmaMemoryUsage.VMA_MEMORY_USAGE_GPU_ONLY 1).2.live = busyWorld.live) ∧
    (failed (Image.new outOfMemoryDriver busyWorld 1 0 1 37 extent256 1 0
        VK_IMAGE_USAGE_SAMPLED_BIT VmaMemoryUsage.VMA_MEMORY_USAGE_GPU_ONLY 1).1 = true ∧
      (Image.new outOfMemoryDriver busyWorld 1 0 1 37 extent256 1 0
        VK_IMAGE_USAGE_SAMPLED_BIT VmaMemoryUsage.VMA_MEMORY_USAGE_GPU_ONLY 1).2.live =
        busyWorld.live) :=
  ⟨⟨by decide,
    ((construction_fails_iff_creation_call_fails outOfMemoryDriver busyWorld 1 65536
      VK_BUFFER_USAGE_TRANSFER_DST_BIT 0 VmaMemoryUsage.VMA_MEMORY_USAGE_GPU_ONLY 1 0 1 37
      extent256 1 0 VK_IMAGE_USAGE_SAMPLED_BIT).1.2.2 (by decide)).2.2⟩,
   ⟨by decide,
    ((construction_fails_iff_creation_call_fails outOfMemoryDriver busyWorld 1 65536
      VK_BUFFER_USAGE_TRANSFER_DST_BIT 0 VmaMemoryUsage.VMA_MEMORY_USAGE_GPU_ONLY 1 0 1 37
      extent256 1 0 VK_IMAGE_USAGE_SAMPLED_BIT).2.2.2 (by decide)).2.2⟩⟩

/-! ## C2: construction followed by destruction -/

theorem buffer_new_of_success (d : Driver) (w : World) (allocator : VmaAllocator)
    (size : VkDeviceSize) (usage : VkFlags) (graphicsQueueFamilyIndex : Nat)
    (memoryUsage : VmaMemoryUsage) (requiredFlags : VkFlags)
    (h : (d.createBuffer w allocator
      (Buffer.bufferCreateInfo size usage graphicsQueueFamilyIndex)
      (Buffer.allocationCreateInfo memoryUsage requiredFlags)).1 = VK_SUCCESS) :
    Buffer.new d w allocator size usage graphicsQueueFamilyIndex memoryUsage requiredFlags =
      (Except.ok
        { mAllocator := allocator,
          mBuffer := (d.createBuffer w allocator
            (Buffer.bufferCreateInfo size usage graphicsQueueFamilyIndex)
            (Buffer.allocationCreateInfo memoryUsage requiredFlags)).2.1,
          mAllocation := (d.createBuffer w allocator
            (Buffer.bufferCreateInfo size usage graphicsQueueFamilyIndex)
            (Buffer.allocationCreateInfo memoryUsage requiredFlags)).2.2 },
        { live := insert (allocator, (d.createBuffer w allocator
            (Buffer.bufferCreateInfo size usage graphicsQueueFamilyIndex)
            (Buffer.allocationCreateInfo memoryUsage requiredFlags)).2.2) w.live,
          calls := w.calls ++ [NativeCall.vmaCreateBuffer allocator
            (Buffer.bufferCreateInfo size usage graphicsQueueFamilyIndex)
            (Buffer.allocationCreateInfo memoryUsage requiredFlags)] }) := by
  simp [Buffer.new, vmaCreateBuffer, h]

theorem image_new_of_success (d : Driver) (w : World) (allocator : VmaAllocator)
    (graphicsQueueIndex imageType : Nat) (format : VkFormat) (extent : VkExtent3D)
    (mipLevels tiling : Nat) (usage : VkFlags) (memoryUsage : VmaMemoryUsage)
    (requiredFlags : VkFlags)
    (h : (d.createImage w allocator
      (Image.imageCreateInfo graphicsQueueIndex imageType format extent mipLevels tiling usage)
      (Image.allocationCreateInfo memoryUsage requiredFlags)).1 = VK_SUCCESS) :
    Image.new d w allocator graphicsQueueIndex imageType format extent mipLevels tiling usage
        memoryUsage requiredFlags =
      (Except.ok
        { mAllocator := allocator,
          mImage := (d.createImage w allocator
            (Image.imageCreateInfo graphicsQueueIndex imageType format extent mipLevels tiling
              usage)
            (Image.allocationCreateInfo memoryUsage requiredFlags)).2.1,
          mAllocation := (d.createImage w allocator
            (Image.imageCreateInfo graphicsQueueIndex imageType format extent mipLevels tiling
              usage)
            (Image.allocationCreateInfo memoryUsage requiredFlags)).2.2 },
        { live := insert (allocator, (d.createImage w allocator
            (Image.imageCreateInfo graphicsQueueIndex imageType format extent mipLevels tiling
              usage)
            (Image.allocationCreateInfo memoryUsage requiredFlags)).2.2) w.live,
          calls := w.calls ++ [NativeCall.vmaCreateImage allocator
            (Image.imageCreateInfo graphicsQueueIndex imageType format extent mipLevels tiling
              usage)
            (Image.allocationCreateInfo memoryUsage requiredFlags)] }) := by
  simp [Image.new, vmaCreateImage, h]

theorem buffer_destroy_issued (w : World) (b : Buffer) :
    w.issued (b.destroy w) = [NativeCall.vmaDestroyBuffer b.mAllocator b.mBuffer b.mAllocation] :=
  issued_append w _ _

theorem image_destroy_issued (w : World) (i : Image) :
    w.issued (i.destroy w) = [NativeCall.vmaDestroyImage i.mAllocator i.mImage i.mAllocation] :=
  issued_append w _ _

theorem buffer_destroy_live (w : World) (b : Buffer) :
    (b.destroy w).live = w.live.erase (b.mAllocator, b.mAllocation) :=
  rfl

theorem image_destroy_live (w : World) (i : Image) :
    (i.destroy w).live = w.live.erase (i.mAllocator, i.mAllocation) :=
  rfl

/-- C2: when the creation call reports success, the constructed Buffer (resp.
Image) holds the allocator passed in and the handle and token the call
returned; its destruction issues exactly one call, the native destroy call on
exactly that allocator, handle and token; the released token was registered at
that moment, and if the allocator handed out a token that was not live before,
the live set after construction and destruction is the one before
construction. -/
theorem construction_then_destruction_restores_live_set (d : Driver) (w : World)
    (allocator : VmaAllocator) (size : VkDeviceSize) (usage : VkFlags)
    (graphicsQueueFamilyIndex : Nat) (memoryUsage : VmaMemoryUsage) (requiredFlags : VkFlags)
    (graphicsQueueIndex imageType : Nat) (format : VkFormat) (extent : VkExtent3D)
    (mipLevels tiling : Nat) (imageUsage : VkFlags) :
    ((d.createBuffer w allocator
          (Buffer.bufferCreateInfo size usage graphicsQueueFamilyIndex)
          (Buffer.allocationCreateInfo memoryUsage requiredFlags)).1 = VK_SUCCESS →
      ∃ (b : Buffer) (w1 : World) (handle : VkBuffer) (token : VmaAllocation),
        (d.createBuffer w allocator
          (Buffer.bufferCreateInfo size usage graphicsQueueFamilyIndex)
          (Buffer.allocationCreateInfo memoryUsage requiredFlags)).2 = (handle, token) ∧
        Buffer.new d w allocator size usage graphicsQueueFamilyIndex memoryUsage requiredFlags =
          (Except.ok b, w1) ∧
        w1.issued (b.destroy w1) = [NativeCall.vmaDestroyBuffer allocator handle token] ∧
        (w.issued (b.destroy w1)).filter NativeCall.isDestroy =
          [NativeCall.vmaDestroyBuffer allocator handle token] ∧
        (allocator, token) ∈ w1.live ∧
        ((allocator, token) ∉ w.live → (b.destroy w1).live = w.live)) ∧
    ((d.createImage w allocator
          (Image.imageCreateInfo graphicsQueueIndex imageType format extent mipLevels tiling
            imageUsage)
          (Image.allocationCreateInfo memoryUsage requiredFlags)).1 = VK_SUCCESS →
      ∃ (i : Image) (w1 : World) (handle : VkImage) (token : VmaAllocation),
        (d.createImage w allocator
          (Image.imageCreateInfo graphicsQueueIndex imageType format extent mipLevels tiling
            imageUsage)
          (Image.allocationCreateInfo memoryUsage requiredFlags)).2 = (handle, token) ∧
        Image.new d w allocator graphicsQueueIndex imageType format extent mipLevels tiling
          imageUsage memoryUsage requiredFlags = (Except.ok i, w1) ∧
        w1.issued (i.destroy w1) = [NativeCall.vmaDestroyImage allocator handle token] ∧
        (w.issued (i.destroy w1)).filter NativeCall.isDestroy =
          [NativeCall.vmaDestroyImage allocator handle token] ∧
        (allocator, token) ∈ w1.live ∧
        ((allocator, token) ∉ w.live → (i.destroy w1).live = w.live)) := by
  constructor
  · intro h
    refine ⟨_, _, _, _, rfl, buffer_new_of_success d w allocator size usage
      graphicsQueueFamilyIndex memoryUsage requiredFlags h, ?_, ?_, ?_, ?_⟩
    · exact buffer_destroy_issued _ _
    · simp [World.issued, Buffer.destroy, vmaDestroyBuffer, NativeCall.isDestroy]
    · simp
    · intro hfresh
      rw [buffer_destroy_live]
      exact Finset.erase_insert hfresh
  · intro h
    refine ⟨_, _, _, _, rfl, image_new_of_success d w allocator graphicsQueueIndex imageType
      format extent mipLevels tiling imageUsage memoryUsage requiredFlags h, ?_, ?_, ?_, ?_⟩
    · exact image_destroy_issued _ _
    · simp [World.issued, Image.destroy, vmaDestroyImage, NativeCall.isDestroy]
    · simp
    · intro hfresh
      rw [image_destroy_live]
      exact Finset.erase_insert hfresh

/-- C2 at a concrete input: on a world where allocator 1 already holds token 7,
a buffer and an image are built with the fresh token 42 and destroyed again;
the live set is back to what it was. -/
theorem construction_then_destruction_restores_live_set_witness :
    (∃ (b : Buffer) (w1 : World),
      Buffer.new fullDriver busyWorld 1 65536 VK_BUFFER_USAGE_TRANSFER_DST_BIT 0
        VmaMemoryUsage.VMA_MEMORY_USAGE_GPU_ONLY 1 = (Except.ok b, w1) ∧
      (1, 42) ∈ w1.live ∧ (b.destroy w1).live = busyWorld.live) ∧
    (∃ (i : Image) (w1 : World),
      Image.new fullDriver busyWorld 1 0 1 37 extent256 1 0 VK_IMAGE_USAGE_SAMPLED_BIT
        VmaMemoryUsage.VMA_MEMORY_USAGE_GPU_ONLY 1 = (Except.ok i, w1) ∧
      (1, 42) ∈ w1.live ∧ (i.destroy w1).live = busyWorld.live) := by
  constructor
  · obtain ⟨b, w1, handle, token, hr, hnew, _, _, hmem, hlive⟩ :=
      (construction_then_destruction_restores_live_set fullDriver busyWorld 1 65536
        VK_BUFFER_USAGE_TRANSFER_DST_BIT 0 VmaMemoryUsage.VMA_MEMORY_USAGE_GPU_ONLY 1 0 1 37
        extent256 1 0 VK_IMAGE_USAGE_SAMPLED_BIT).1 (by decide)
    have hpair : ((100 : Nat), (42 : Nat)) = (handle, token) := hr
    cases hpair
    exact ⟨b, w1, hnew, hmem, hlive (by decide)⟩
  · obtain ⟨i, w1, handle, token, hr, hnew, _, _, hmem, hlive⟩ :=
      (construction_then_destruction_restores_live_set fullDriver busyWorld 1 65536
        VK_BUFFER_USAGE_TRANSFER_DST_BIT 0 VmaMemoryUsage.VMA_MEMORY_USAGE_GPU_ONLY 1 0 1 37
        extent256 1 0 VK_IMAGE_USAGE_SAMPLED_BIT).2 (by decide)
    have hpair : ((100 : Nat), (42 : Nat)) = (handle, token) := hr
    cases hpair
    exact ⟨i, w1, hnew, hmem, hlive (by decide)⟩

/-! ## C3: repeated destruction -/

/-- C3, refuted as stated: a buffer built on the empty world is destroyed
twice; the second run of the destructor issues a further
`vmaDestroyBuffer 1 100 42`, so it is not the case that the second run issues
no call. -/
theorem second_destruction_issues_another_destroy_call :
    (∃ (b : Buffer) (w1 : World),
      Buffer.new fullDriver emptyWorld 1 65536 VK_BUFFER_USAGE_TRANSFER_DST_BIT 0
        VmaMemoryUsage.VMA_MEMORY_USAGE_GPU_ONLY 1 = (Except.ok b, w1) ∧
      (b.destroy w1).issued (b.destroy (b.destroy w1)) =
        [NativeCall.vmaDestroyBuffer 1 100 42] ∧
      ((w1.issued (b.destroy (b.destroy w1))).filter NativeCall.isDestroy).length = 2) ∧
    ¬ (∀ (b : Buffer) (w1 : World),
      Buffer.new fullDriver emptyWorld 1 65536 VK_BUFFER_USAGE_TRANSFER_DST_BIT 0
        VmaMemoryUsage.VMA_MEMORY_USAGE_GPU_ONLY 1 = (Except.ok b, w1) →
      (b.destroy w1).issued (b.destroy (b.destroy w1)) = [] ∧
      (b.destroy (b.destroy w1)).live = (b.destroy w1).live) := by
  have hnew := buffer_new_of_success fullDriver emptyWorld 1 65536
    VK_BUFFER_USAGE_TRANSFER_DST_BIT 0 VmaMemoryUsage.VMA_MEMORY_USAGE_GPU_ONLY 1 rfl
  constructor
  · refine ⟨_, _, hnew, buffer_destroy_issued _ _, ?_⟩
    simp [World.issued, Buffer.destroy, vmaDestroyBuffer, NativeCall.isDestroy]
  · intro h
    have h2 := (h _ _ hnew).1
    rw [buffer_destroy_issued] at h2
    cases h2

/-- C3, amended: when the creation call reports success, every run of the
destructor of the constructed Buffer (resp. Image) issues exactly one native
destroy call on the allocator passed to the constructor and the handle and
token the creation call returned: one call for the first run, and one more,
with the same arguments, for a second run on the same object.  The second run
finds the token already released and leaves the live set as the first run left
it. -/
theorem each_destruction_issues_one_destroy_call (d : Driver) (w : World)
    (allocator : VmaAllocator) (size : VkDeviceSize) (usage : VkFlags)
    (graphicsQueueFamilyIndex : Nat) (memoryUsage : VmaMemoryUsage) (requiredFlags : VkFlags)
    (graphicsQueueIndex imageType : Nat) (format : VkFormat) (extent : VkExtent3D)
    (mipLevels tiling : Nat) (imageUsage : VkFlags) :
    ((d.createBuffer w allocator
          (Buffer.bufferCreateInfo size usage graphicsQueueFamilyIndex)
          (Buffer.allocationCreateInfo memoryUsage requiredFlags)).1 = VK_SUCCESS →
      ∃ (b : Buffer) (w1 : World) (handle : VkBuffer) (token : VmaAllocation),
        (d.createBuffer w allocator
          (Buffer.bufferCreateInfo size usage graphicsQueueFamilyIndex)
          (Buffer.allocationCreateInfo memoryUsage requiredFlags)).2 = (handle, token) ∧
        Buffer.new d w allocator size usage graphicsQueueFamilyIndex memoryUsage requiredFlags =
          (Except.ok b, w1) ∧
        w1.issued (b.destroy w1) = [NativeCall.vmaDestroyBuffer allocator handle token] ∧
        (b.destroy w1).issued (b.destroy (b.destroy w1)) =
          [NativeCall.vmaDestroyBuffer allocator handle token] ∧
        (b.destroy (b.destroy w1)).live = (b.destroy w1).live) ∧
    ((d.createImage w allocator
          (Image.imageCreateInfo graphicsQueueIndex imageType format extent mipLevels tiling
            imageUsage)
          (Image.allocationCreateInfo memoryUsage requiredFlags)).1 = VK_SUCCESS →
      ∃ (i : Image) (w1 : World) (handle : VkImage) (token : VmaAllocation),
        (d.createImage w allocator
          (Image.imageCreateInfo graphicsQueueIndex imageType format extent mipLevels tiling
            imageUsage)
          (Image.allocationCreateInfo memoryUsage requiredFlags)).2 = (handle, token) ∧
        Image.new d w allocator graphicsQueueIndex imageType format extent mipLevels tiling
          imageUsage memoryUsage requiredFlags = (Except.ok i, w1) ∧
        w1.issued (i.destroy w1) = [NativeCall.vmaDestroyImage allocator handle token] ∧
        (i.destroy w1).issued (i.destroy (i.destroy w1)) =
          [NativeCall.vmaDestroyImage allocator handle token] ∧
        (i.destroy (i.destroy w1)).live = (i.destroy w1).live) := by
  constructor
  · intro h
    refine ⟨_, _, _, _, rfl, buffer_new_of_success d w allocator size usage
      graphicsQueueFamilyIndex memoryUsage requiredFlags h, ?_, ?_, ?_⟩
    · exact buffer_destroy_issued _ _
    · exact buffer_destroy_issued _ _
    · rw [buffer_destroy_live, buffer_destroy_live]
      exact Finset.erase_idem
  · intro h
    refine ⟨_, _, _, _, rfl, image_new_of_success d w allocator graphicsQueueIndex imageType
      format extent mipLevels tiling imageUsage memoryUsage requiredFlags h, ?_, ?_, ?_⟩
    · exact image_destroy_issued _ _
    · exact image_destroy_issued _ _
    · rw [image_destroy_live, image_destroy_live]
      exact Finset.erase_idem

/-- C3 amended, at a concrete input: a buffer and an image built on a world
that already holds a token; each of two destructor runs issues its own destroy
call. -/
theorem each_destruction_issues_one_destroy_call_witness :
    (∃ (b : Buffer) (w1 : World),
      Buffer.new fullDriver busyWorld 1 65536 VK_BUFFER_USAGE_TRANSFER_DST_BIT 0
        VmaMemoryUsage.VMA_MEMORY_USAGE_GPU_ONLY 1 = (Except.ok b, w1) ∧
      w1.issued (b.destroy w1) = [NativeCall.vmaDestroyBuffer 1 100 42] ∧
      (b.destroy w1).issued (b.destroy (b.destroy w1)) =
        [NativeCall.vmaDestroyBuffer 1 100 42]) ∧
    (∃ (i : Image) (w1 : World),
      Image.new fullDriver busyWorld 1 0 1 37 extent256 1 0 VK_IMAGE_USAGE_SAMPLED_BIT
        VmaMemoryUsage.VMA_MEMORY_USAGE_GPU_ONLY 1 = (Except.ok i, w1) ∧
      w1.issued (i.destroy w1) = [NativeCall.vmaDestroyImage 1 100 42] ∧
      (i.destroy w1).issued (i.destroy (i.destroy w1)) =
        [NativeCall.vmaDestroyImage 1 100 42]) := by
  constructor
  · obtain ⟨b, w1, handle, token, hr, hnew, h1, h2, _⟩ :=
      (each_destruction_issues_one_destroy_call fullDriver busyWorld 1 65536
        VK_BUFFER_USAGE_TRANSFER_DST_BIT 0 VmaMemoryUsage.VMA_MEMORY_USAGE_GPU_ONLY 1 0 1 37
        extent256 1 0 VK_IMAGE_USAGE_SAMPLED_BIT).1 (by decide)
    have hpair : ((100 : Nat), (42 : Nat)) = (handle, token) := hr
    cases hpair
    exact ⟨b, w1, hnew, h1, h2⟩
  · obtain ⟨i, w1, handle, token, hr, hnew, h1, h2, _⟩ :=
      (each_destruction_issues_one_destroy_call fullDriver busyWorld 1 65536
        VK_BUFFER_USAGE_TRANSFER_DST_BIT 0 VmaMemoryUsage.VMA_MEMORY_USAGE_GPU_ONLY 1 0 1 37
        extent256 1 0 VK_IMAGE_USAGE_SAMPLED_BIT).2 (by decide)
    have hpair : ((100 : Nat), (42 : Nat)) = (handle, token) := hr
    cases hpair
    exact ⟨i, w1, hnew, h1, h2⟩

/-! ## C4 and C5: what the creation requests carry -/

/-- C4, evaluated at the failing input: a 65536-byte buffer is requested with
usage `VK_BUFFER_USAGE_TRANSFER_DST_BIT` on queue family 3.  The one call issued
is `vmaCreateBuffer`, and the request it carries has the size, the exclusive
sharing mode and the single queue family asked for, but its `usage` field is 0,
not the usage argument. -/
theorem buffer_request_drops_usage :
    ∃ (info : VkBufferCreateInfo) (alloc : VmaAllocationCreateInfo),
      emptyWorld.issued (Buffer.new fullDriver emptyWorld 1 65536
        VK_BUFFER_USAGE_TRANSFER_DST_BIT 3 VmaMemoryUsage.VMA_MEMORY_USAGE_GPU_ONLY
        VK_MEMORY_PROPERTY_DEVICE_LOCAL_BIT).2 = [NativeCall.vmaCreateBuffer 1 info alloc] ∧
      info.size = 65536 ∧
      info.sharingMode = VK_SHARING_MODE_EXCLUSIVE ∧
      info.queueFamilyIndexCount = 1 ∧
      info.pQueueFamilyIndices = [3] ∧
      info.usage = 0 ∧
      info.usage ≠ VK_BUFFER_USAGE_TRANSFER_DST_BIT :=
  ⟨Buffer.bufferCreateInfo 65536 VK_BUFFER_USAGE_TRANSFER_DST_BIT 3,
    Buffer.allocationCreateInfo VmaMemoryUsage.VMA_MEMORY_USAGE_GPU_ONLY
      VK_MEMORY_PROPERTY_DEVICE_LOCAL_BIT,
    (construction_issues_one_creation_call fullDriver emptyWorld 1 65536
      VK_BUFFER_USAGE_TRANSFER_DST_BIT 3 VmaMemoryUsage.VMA_MEMORY_USAGE_GPU_ONLY
      VK_MEMORY_PROPERTY_DEVICE_LOCAL_BIT 0 0 0 extent256 0 0 0).1,
    rfl, rfl, rfl, rfl, rfl, by decide⟩

/-- C5, evaluated at the failing input: an image is requested with memory hint
`VMA_MEMORY_USAGE_CPU_ONLY` and required flags host-visible and host-coherent
(6).  The allocation request carried by the one `vmaCreateImage` call has
`usage = VMA_MEMORY_USAGE_GPU_ONLY` and `requiredFlags = 2`, the integer value
of the memory hint; the allocation request `Buffer::Buffer` builds from the same
two arguments has `usage = VMA_MEMORY_USAGE_CPU_ONLY` and `requiredFlags = 6`. -/
theorem image_request_misplaces_memory_arguments :
    (∃ (info : VkImageCreateInfo) (alloc : VmaAllocationCreateInfo),
      emptyWorld.issued (Image.new fullDriver emptyWorld 1 0 1 37 extent256 1 0
        VK_IMAGE_USAGE_SAMPLED_BIT VmaMemoryUsage.VMA_MEMORY_USAGE_CPU_ONLY 6).2 =
        [NativeCall.vmaCreateImage 1 info alloc] ∧
      alloc.usage = VmaMemoryUsage.VMA_MEMORY_USAGE_GPU_ONLY ∧
      alloc.usage ≠ VmaMemoryUsage.VMA_MEMORY_USAGE_CPU_ONLY ∧
      alloc.requiredFlags = 2 ∧
      alloc.requiredFlags ≠ 6) ∧
    (Buffer.allocationCreateInfo VmaMemoryUsage.VMA_MEMORY_USAGE_CPU_ONLY 6).usage =
      VmaMemoryUsage.VMA_MEMORY_USAGE_CPU_ONLY ∧
    (Buffer.allocationCreateInfo VmaMemoryUsage.VMA_MEMORY_USAGE_CPU_ONLY 6).requiredFlags = 6 :=
  ⟨⟨Image.imageCreateInfo 0 1 37 extent256 1 0 VK_IMAGE_USAGE_SAMPLED_BIT,
    Image.allocationCreateInfo VmaMemoryUsage.VMA_MEMORY_USAGE_CPU_ONLY 6,
    (construction_issues_one_creation_call fullDriver emptyWorld 1 0 0 0
      VmaMemoryUsage.VMA_MEMORY_USAGE_CPU_ONLY 6 0 1 37 extent256 1 0
      VK_IMAGE_USAGE_SAMPLED_BIT).2,
    rfl, by decide, rfl, by decide⟩, rfl, rfl⟩

/-! ## C6: the required diagnostic layer -/

theorem strcmp_eq_zero_iff (a b : String) : strcmp a b = 0 ↔ a = b := by
  unfold strcmp
  by_cases h : a = b
  · simp [h]
  · simp only [h, if_false, iff_false]
    split <;> decide

theorem foundLayer_foldl (required : String) (layerProperties : List VkLayerProperties)
    (acc : Bool) :
    layerProperties.foldl
        (fun foundLayer p => if strcmp required p.layerName = 0 then true else foundLayer) acc =
      (acc || decide (∃ p ∈ layerProperties, p.layerName = required)) := by
  induction layerProperties generalizing acc with
  | nil => simp
  | cons p ps ih =>
    rw [List.foldl_cons, ih]
    by_cases h : required = p.layerName
    · subst h
      have h0 : strcmp p.layerName p.layerName = 0 := (strcmp_eq_zero_iff _ _).2 rfl
      simp [h0]
    · have h0 : ¬ strcmp required p.layerName = 0 := fun hc => h ((strcmp_eq_zero_iff _ _).1 hc)
      have h1 : ¬ p.layerName = required := fun hc => h hc.symm
      simp [h0, h1]

theorem foundLayer_eq_true_iff (required : String) (layerProperties : List VkLayerProperties) :
    RenderDevice.foundLayer required layerProperties = true ↔
      ∃ p ∈ layerProperties, p.layerName = required := by
  unfold RenderDevice.foundLayer
  rw [foundLayer_foldl]
  simp

theorem layerLoop_all_found (requiredLayers : List String)
    (layerProperties : List VkLayerProperties) (instanceLayers : List String)
    (h : ∀ r ∈ requiredLayers, ∃ p ∈ layerProperties, p.layerName = r) :
    RenderDevice.layerLoop requiredLayers layerProperties instanceLayers =
      Except.ok (instanceLayers ++ requiredLayers) := by
  induction requiredLayers generalizing instanceLayers with
  | nil => simp [RenderDevice.layerLoop]
  | cons r rs ih =>
    have hr : RenderDevice.foundLayer r layerProperties = true :=
      (foundLayer_eq_true_iff _ _).2 (h r (List.mem_cons_self _ _))
    rw [RenderDevice.layerLoop]
    simp only [hr, Bool.not_true, Bool.false_eq_true, if_false]
    rw [ih _ (fun r' hr' => h r' (List.mem_cons_of_mem _ hr'))]
    simp

theorem layerLoop_some_missing (requiredLayers : List String)
    (layerProperties : List VkLayerProperties) (instanceLayers : List String)
    (h : ∃ r ∈ requiredLayers, ∀ p ∈ layerProperties, p.layerName ≠ r) :
    RenderDevice.layerLoop requiredLayers layerProperties instanceLayers =
      Except.error "Could not find a required instance layer!" := by
  induction requiredLayers generalizing instanceLayers with
  | nil =>
    obtain ⟨r, hr, _⟩ := h
    cases hr
  | cons r rs ih =>
    rw [RenderDevice.layerLoop]
    by_cases hf : RenderDevice.foundLayer r layerProperties = true
    · simp only [hf, Bool.not_true, Bool.false_eq_true, if_false]
      apply ih
      obtain ⟨r', hr', hmiss⟩ := h
      rcases List.mem_cons.1 hr' with heq | hin
      · subst heq
        obtain ⟨p, hp, hname⟩ := (foundLayer_eq_true_iff _ _).1 hf
        exact absurd hname (hmiss p hp)
      · exact ⟨r', hin, hmiss⟩
    · simp [hf]

theorem enumerated_vector (α : Type) (reported : List α) (zero : α) :
    reported.take reported.length ++
      (vectorResize ([] : List α) reported.length zero).drop
        (reported.take reported.length).length = reported := by
  simp [vectorResize]

theorem debugLayers_eq (d : Driver) (w : World) (instanceLayers : List String) :
    RenderDevice.debugLayers d w instanceLayers =
      if d.layerCountResult ≠ VK_SUCCESS then
        (Except.error "Could not get the instance layers count!",
          { w with calls := w.calls ++ [NativeCall.vkEnumerateInstanceLayerProperties false] })
      else if d.layerDataResult ≠ VK_SUCCESS then
        (Except.error "Could not get the instance layers!",
          { w with calls := w.calls ++ [NativeCall.vkEnumerateInstanceLayerProperties false,
            NativeCall.vkEnumerateInstanceLayerProperties true] })
      else
        (RenderDevice.layerLoop RenderDevice.requiredLayers d.layers instanceLayers,
          { w with calls := w.calls ++ [NativeCall.vkEnumerateInstanceLayerProperties false,
            NativeCall.vkEnumerateInstanceLayerProperties true] }) := by
  simp only [RenderDevice.debugLayers, vkEnumerateInstanceLayerPropertiesCount,
    vkEnumerateInstanceLayerPropertiesData, enumerated_vector]
  split
  · rfl
  · split
    · simp
    · simp

/-- C6: in a debug build, for every list of layers the driver reports: if a
layer of the required set, which is `VK_LAYER_KHRONOS_validation`, has no entry
of equal name in the list, the constructor throws and none of the calls it
issued is `vkCreateInstance`; if both enumeration calls succeed and every
required layer has an entry, the layer block does not throw, the enabled layer
list it leaves is the required set in order, and the constructor goes on to the
extension and instance steps with that list. -/
theorem required_layer_check (ver : Version) (win : Window) (d : Driver) (w : World)
    (physicalDeviceIndex : Nat) :
    RenderDevice.requiredLayers = ["VK_LAYER_KHRONOS_validation"] ∧
    ((∃ r ∈ RenderDevice.requiredLayers, ∀ p ∈ d.layers, p.layerName ≠ r) →
      failed (RenderDevice.new true ver win d w physicalDeviceIndex).1 = true ∧
      ∀ c ∈ w.issued (RenderDevice.new true ver win d w physicalDeviceIndex).2,
        c.isCreateInstance = false) ∧
    (d.layerCountResult = VK_SUCCESS → d.layerDataResult = VK_SUCCESS →
      (∀ r ∈ RenderDevice.requiredLayers, ∃ p ∈ d.layers, p.layerName = r) →
      (RenderDevice.debugLayers d w []).1 = Except.ok RenderDevice.requiredLayers ∧
      RenderDevice.new true ver win d w physicalDeviceIndex =
        RenderDevice.extensionsAndInstance win d (RenderDevice.debugLayers d w []).2
          (RenderDevice.applicationInfo ver) RenderDevice.requiredLayers []) := by
  refine ⟨rfl, ?_, ?_⟩
  · intro hmiss
    simp only [RenderDevice.new, if_true]
    rw [debugLayers_eq]
    by_cases h1 : d.layerCountResult = VK_SUCCESS
    · by_cases h2 : d.layerDataResult = VK_SUCCESS
      · simp only [h1, h2, ne_eq, not_true_eq_false, if_false]
        rw [layerLoop_some_missing _ _ _ hmiss]
        refine ⟨rfl, ?_⟩
        intro c hc
        simp only [World.issued, List.drop_left, List.mem_cons, List.mem_singleton,
          List.not_mem_nil, or_false] at hc
        rcases hc with hc | hc <;> subst hc <;> rfl
      · simp only [h1, h2, ne_eq, not_true_eq_false, not_false_eq_true, if_false, if_true]
        refine ⟨rfl, ?_⟩
        intro c hc
        simp only [World.issued, List.drop_left, List.mem_cons, List.mem_singleton,
          List.not_mem_nil, or_false] at hc
        rcases hc with hc | hc <;> subst hc <;> rfl
    · simp only [h1, ne_eq, not_false_eq_true, if_true]
      refine ⟨rfl, ?_⟩
      intro c hc
      simp only [World.issued, List.drop_left, List.mem_singleton] at hc
      subst hc
      rfl
  · intro h1 h2 hall
    have hblock : RenderDevice.debugLayers d w [] =
        (Except.ok RenderDevice.requiredLayers,
          { w with calls := w.calls ++ [NativeCall.vkEnumerateInstanceLayerProperties false,
            NativeCall.vkEnumerateInstanceLayerProperties true] }) := by
      rw [debugLayers_eq, layerLoop_all_found _ _ _ hall]
      simp [h1, h2]
    refine ⟨by rw [hblock], ?_⟩
    simp only [RenderDevice.new, if_true]
    rw [hblock]

/-- C6 at concrete inputs: a driver that reports only an API-dump layer makes
the debug constructor throw without an instance request; a driver that reports
the validation layer after another one passes the layer block with the
required set enabled. -/
theorem required_layer_check_witness :
    (failed (RenderDevice.new true version010 win32Window bareDriver emptyWorld 0).1 = true ∧
      ∀ c ∈ emptyWorld.issued
        (RenderDevice.new true version010 win32Window bareDriver emptyWorld 0).2,
        c.isCreateInstance = false) ∧
    (RenderDevice.debugLayers fullDriver emptyWorld []).1 =
      Except.ok ["VK_LAYER_KHRONOS_validation"] :=
  ⟨(required_layer_check version010 win32Window bareDriver emptyWorld 0).2.1
      ⟨"VK_LAYER_KHRONOS_validation", by decide, by decide⟩,
    ((required_layer_check version010 win32Window fullDriver emptyWorld 0).2.2
      rfl rfl (by decide)).1⟩

/-! ## C7 and C8: the presentation extensions -/

/-- C7, evaluated at the failing input: the driver reports no extension at
all, so neither `VK_KHR_surface` nor the window's `VK_KHR_win32_surface` is in
its list, and every call succeeds.  The constructor (release build) enumerates
the extensions, issues `vkCreateInstance` and returns a RenderDevice. -/
theorem absent_extension_does_not_stop_construction :
    (∀ e ∈ bareDriver.extensions,
      e.extensionName ≠ "VK_KHR_surface" ∧
      e.extensionName ≠ win32Window.GetSurfaceInstanceExtensionName) ∧
    (RenderDevice.new false version010 win32Window bareDriver emptyWorld 0).1 =
      Except.ok { mInstance := 300 } ∧
    failed (RenderDevice.new false version010 win32Window bareDriver emptyWorld 0).1 = false ∧
    (emptyWorld.issued
      (RenderDevice.new false version010 win32Window bareDriver emptyWorld 0).2).map
        NativeCall.isCreateInstance = [false, false, true] :=
  ⟨by decide, rfl, rfl, rfl⟩

/-- C8, evaluated at the failing input: the driver reports the validation
layer, `VK_KHR_surface` and `VK_KHR_win32_surface`, and every call succeeds.
The debug constructor reaches `vkCreateInstance` once; the request enables the
validated layer list with count 1, but its extension list is empty with count
0, so it contains neither `VK_KHR_surface` nor the window's extension name. -/
theorem instance_request_enables_no_extension :
    ∃ info : VkInstanceCreateInfo,
      instanceRequests (emptyWorld.issued
        (RenderDevice.new true version010 win32Window fullDriver emptyWorld 0).2) = [info] ∧
      info.ppEnabledLayerNames = ["VK_LAYER_KHRONOS_validation"] ∧
      info.enabledLayerCount = 1 ∧
      info.ppEnabledExtensionNames = [] ∧
      info.enabledExtensionCount = 0 ∧
      "VK_KHR_surface" ∉ info.ppEnabledExtensionNames ∧
      win32Window.GetSurfaceInstanceExtensionName ∉ info.ppEnabledExtensionNames :=
  ⟨RenderDevice.instanceCreateInfo (RenderDevice.applicationInfo version010)
      ["VK_LAYER_KHRONOS_validation"] [],
    rfl, rfl, rfl, rfl, rfl, by simp [RenderDevice.instanceCreateInfo],
    by simp [RenderDevice.instanceCreateInfo]⟩

/-! ## C9: tearing down views -/

/-- C9, evaluated at the failing input: an image view and a buffer view are
built on device 5 with every call succeeding.  Destroying the buffer view
issues `vkDestroyBufferView 5 200`; destroying the image view issues no call, so
no view-destroy call reaches the driver for the handle the creation call
returned. -/
theorem image_view_destruction_issues_no_call :
    (∃ (v : ImageView) (w1 : World),
      ImageView.new fullDriver emptyWorld 5 100 1 extent256 37 ⟨0, 0, 0, 0⟩ ⟨1, 0, 1, 0, 1⟩ =
        (Except.ok v, w1) ∧
      v = { mDevice := 5, mImageView := 200 } ∧
      w1.issued (v.destroy w1) = [] ∧
      NativeCall.vkDestroyImageView 5 200 ∉ (v.destroy w1).calls) ∧
    (∃ (v : BufferView) (w1 : World),
      BufferView.new fullDriver emptyWorld 5 100 37 0 65536 = (Except.ok v, w1) ∧
      v = { mDevice := 5, mBufferView := 200 } ∧
      w1.issued (v.destroy w1) = [NativeCall.vkDestroyBufferView 5 200]) :=
  ⟨⟨_, _, rfl, rfl, rfl, by decide⟩, ⟨_, _, rfl, rfl, rfl⟩⟩

/-! ## C10: the buffer view request -/

/-- C10: for every device, buffer, format, offset and range, whatever the size
of the buffer, `BufferView::BufferView` issues exactly one native call, the
view-creation call on that device, whose request carries the buffer, format,
offset and range it was given, unchanged; construction returns a view, holding
the device and the handle the call returned, if and only if the call reports
`VK_SUCCESS`, and throws if and only if it reports anything else. -/
theorem buffer_view_request_is_passed_unchanged (d : Driver) (w : World) (device : VkDevice)
    (buffer : VkBuffer) (format : VkFormat) (offset range : VkDeviceSize) :
    ∃ info : VkBufferViewCreateInfo,
      w.issued (BufferView.new d w device buffer format offset range).2 =
        [NativeCall.vkCreateBufferView device info] ∧
      info.buffer = buffer ∧ info.format = format ∧
      info.offset = offset ∧ info.range = range ∧
      ((d.createBufferView w device info).1 = VK_SUCCESS ↔
        (BufferView.new d w device buffer format offset range).1 =
          Except.ok { mDevice := device, mBufferView := (d.createBufferView w device info).2 }) ∧
      ((d.createBufferView w device info).1 ≠ VK_SUCCESS ↔
        failed (BufferView.new d w device buffer format offset range).1 = true) := by
  refine ⟨BufferView.bufferViewCreateInfo buffer format offset range, ?_, rfl, rfl, rfl, rfl,
    ?_, ?_⟩
  · simp only [BufferView.new, vkCreateBufferView]
    split <;> exact issued_append w _ _
  · simp only [BufferView.new, vkCreateBufferView]
    split <;> simp_all
  · simp only [BufferView.new, vkCreateBufferView]
    split <;> simp_all [failed]

/-- C10 at a concrete input: a view at offset 4096 with range 65536 (past the
end of a 65536-byte buffer) is requested from a driver that accepts it; the
request logged has offset 4096 and range 65536 and the view is returned. -/
theorem buffer_view_request_is_passed_unchanged_witness :
    ∃ info : VkBufferViewCreateInfo,
      emptyWorld.issued (BufferView.new fullDriver emptyWorld 5 100 37 4096 65536).2 =
        [NativeCall.vkCreateBufferView 5 info] ∧
      info.offset = 4096 ∧ info.range = 65536 ∧
      (BufferView.new fullDriver emptyWorld 5 100 37 4096 65536).1 =
        Except.ok { mDevice := 5, mBufferView := 200 } := by
  obtain ⟨info, hcall, _, _, hoff, hrange, hok, _⟩ :=
    buffer_view_request_is_passed_unchanged fullDriver emptyWorld 5 100 37 4096 65536
  exact ⟨info, hcall, hoff, hrange, hok.1 rfl⟩

end Prototype
